import Mathlib

/-!
# Verification of the anima-sdk streaming job-session protocol client

Shallow embedding of the streaming job-session client of the `anima-sdk`
repository:

* the React-side reducer `subscribeToJobStream` together with its wrappers
  `createJob` / `attachJob` (file `sdk-react/src/useFigmaFile.ts`, second
  document: the job module),
* the core SSE loop `Anima.#processGenerationRequest`
  (file `sdk/src/anima.ts`),
* the provider facade `AnimaSdkProvider.createJob` / `attachJob`
  (the unnamed provider module).

External collaborators (the `fetch` response, `JSON.parse`, `localStorage`,
asset downloads) are passed in as explicit parameters, exactly where the
source consults them.
-/

namespace AnimaSdk

/-! ## Basic data model (types.ts / useFigmaFile.ts) -/

/-- `Status` in `useFigmaFile.ts`: `"idle" | "pending" | "success" | "aborted" | "error"`. -/
inductive Status where
  | idle | pending | success | aborted | error
deriving DecidableEq, Repr

/-- `TaskStatus` in `useFigmaFile.ts`: `"pending" | "running" | "finished"`. -/
inductive TaskStatus where
  | pending | running | finished
deriving DecidableEq, Repr

/-- `generating_code` payload status: `"success" | "running" | "failure"`. -/
inductive GenStatus where
  | success | running | failure
deriving DecidableEq, Repr

/-- One entry of `AnimaFiles` (types.ts): `\x7b content: string; isBinary: boolean \x7d`. -/
structure FileEntry where
  content : String
  isBinary : Bool
deriving DecidableEq, Repr

/-- `AnimaFiles`: a JS object mapping file paths to entries, modelled as an
association list (later bindings overwrite earlier ones via `insertFile`). -/
abbrev AnimaFiles := List (String × FileEntry)

/-- JS object property assignment `files[path] = entry` (overwrite or append). -/
def insertFile (fs : AnimaFiles) (path : String) (entry : FileEntry) : AnimaFiles :=
  if (fs.map Prod.fst).contains path then
    fs.map (fun p => if p.1 = path then (path, entry) else p)
  else
    fs ++ [(path, entry)]

/-- One asset of `assets_list`: `\x7b name, url \x7d`. -/
structure Asset where
  name : String
  url : String
deriving DecidableEq, Repr

/-- `ProgressMessage` (types.ts). `type` and `status` are kept as plain strings. -/
structure ProgressMessage where
  id : String
  type : String
  title : String
  subtitle : Option String
  body : Option String
  status : String
deriving DecidableEq, Repr

/-- `jobStatus`: `Record<string, any>`, modelled as an association list of
opaque string values. -/
abbrev JobStatusMap := List (String × String)

/-- `CodegenError` (errors.ts): `name`, `message` (the `reason` argument),
optional HTTP `status` and opaque `detail`. -/
structure CodegenError where
  name : String
  message : String
  status : Option Nat
  detail : Option String
deriving DecidableEq, Repr

/-- `Partial<AnimaSDKResult>`: the result accumulator of both stream readers;
every field starts absent and is filled in field by field. -/
structure PartialResult where
  sessionId : Option String
  figmaFileName : Option String
  figmaSelectedFrameName : Option String
  files : Option AnimaFiles
  assets : Option (List Asset)
  tokenUsage : Option Nat
deriving DecidableEq, Repr

/-- The all-absent accumulator `const result: Partial<AnimaSDKResult> = \x7b\x7d`. -/
def PartialResult.empty : PartialResult :=
  ⟨none, none, none, none, none, none⟩

/-- `tasks.fetchDesign` / `tasks.uploadAssets`: `\x7b status: TaskStatus \x7d`. -/
structure SimpleTask where
  status : TaskStatus
deriving DecidableEq, Repr

/-- `tasks.codeGeneration`: `\x7b status: TaskStatus; progress: number \x7d`. -/
structure CodeGenTask where
  status : TaskStatus
  progress : Nat
deriving DecidableEq, Repr

/-- The `tasks` record of `CodegenState`. -/
structure Tasks where
  fetchDesign : SimpleTask
  codeGeneration : CodeGenTask
  uploadAssets : SimpleTask
deriving DecidableEq, Repr

/-- `CodegenState` (useFigmaFile.ts). -/
structure CodegenState where
  status : Status
  error : Option CodegenError
  result : Option PartialResult
  progressMessages : List ProgressMessage
  tasks : Tasks
  jobSessionId : Option String
  jobStatus : JobStatusMap
deriving DecidableEq, Repr

/-- `initialProgress` (useFigmaFile.ts). -/
def initialProgress : CodegenState :=
  { status := .idle
    error := none
    result := none
    progressMessages := []
    tasks :=
      { fetchDesign := ⟨.pending⟩
        codeGeneration := ⟨.pending, 0⟩
        uploadAssets := ⟨.pending⟩ }
    jobSessionId := none
    jobStatus := [] }

/-- `MAX_RETRIES_AFTER_ERROR = 10` (useFigmaFile.ts line 98). -/
def MAX_RETRIES_AFTER_ERROR : Nat := 10

/-! ## The `subscribeToJobStream` reducer (useFigmaFile.ts, job module)

The reducer is the set of `es.addEventListener` callbacks. We model one
delivered event as a `JobEvent` carrying its already-`JSON.parse`d payload
(a named event whose payload fails to parse makes the listener throw before
any mutation, so it is observationally absent from the sequence). The
`error` listener additionally consults the last `fetch` response, which is
part of `SubCfg`. -/

/-- The fields the `error` listener reads from a parsed error frame:
`payload.name`, `payload.message`, `payload.status`, `payload.detail`
(each may be absent on the JS object). -/
structure ErrFields where
  name : Option String
  message : Option String
  status : Option Nat
  detail : Option String
deriving DecidableEq, Repr

/-- Data attached to one `error` event:
* `none` — a connection `ErrorEvent`, or a `MessageEvent` whose data is not
  parseable JSON (`JSON.parse` threw and was swallowed);
* `some none` — parseable JSON without a `payload` object: the listener
  crashes on `errorPayload?.payload.name` before mutating anything;
* `some (some f)` — parseable JSON with a `payload` object. -/
abbrev ErrEventData := Option (Option ErrFields)

/-- One event delivered to the listeners registered by `subscribeToJobStream`. -/
inductive JobEvent where
  | start (sessionId : String)
  | queueing (sessionId : String)
  | preCodegen (message : String)
  | figmaMetadata (figmaFileName figmaSelectedFrameName : String)
  | aborted
  | generatingCode (status : GenStatus) (progress : Nat) (files : Option AnimaFiles)
  | progressMessagesUpdated (msgs : List ProgressMessage)
  | jobStatusUpdated (js : JobStatusMap)
  | codegenCompleted
  | generationCompleted
  | assetsUploaded
  | assetsList (assets : List Asset)
  | error (data : ErrEventData)
  | done (sessionId : String) (tokenUsage : Nat)
deriving DecidableEq, Repr

/-- How one job invocation settles: the `resolve` / `reject` of the promise
returned by `subscribeToJobStream` (only the first call counts). -/
inductive Settled where
  | resolved (result : Option PartialResult) (error : Option CodegenError)
  | rejected (error : CodegenError)
deriving DecidableEq, Repr

/-- The environment the `error` listener consults: whether `lastFetchResponse`
was recorded, whether that response was `ok`, its HTTP status, and the error
message extracted from its body. -/
structure SubCfg where
  hasFetchResponse : Bool
  responseOk : Bool
  responseStatus : Nat
  responseErrorMessage : String
deriving DecidableEq, Repr

/-- A recorded, `ok` fetch response: the situation of every stream that got
past job creation. -/
def SubCfg.ok : SubCfg :=
  ⟨true, true, 200, ""⟩

/-- The full observable state of one `subscribeToJobStream` invocation:
the mutable `state`, the `result` accumulator, the `errorCount` retry
counter, the first settlement of the promise, the snapshots delivered to
`stateUpdated`, and whether the listener itself called `es.close()`. -/
structure SubSession where
  state : CodegenState
  result : PartialResult
  errorCount : Nat
  settled : Option Settled
  snapshots : List CodegenState
  closed : Bool
deriving DecidableEq, Repr

/-- `stateUpdated(\x7b ...state \x7d)`: append an immutable copy of the state. -/
def SubSession.emit (s : SubSession) : SubSession :=
  { s with snapshots := s.snapshots ++ [s.state] }

/-- First `resolve`/`reject` wins; later calls are no-ops on the promise. -/
def SubSession.settle (s : SubSession) (o : Settled) : SubSession :=
  { s with settled := s.settled.orElse (fun _ => some o) }

/-- `subscribeToJobStream` before any event: `state = structuredClone(initialProgress)`
with `status = "pending"`, one initial snapshot, empty accumulator. -/
def initSession : SubSession :=
  let st := { initialProgress with status := Status.pending }
  { state := st
    result := PartialResult.empty
    errorCount := 0
    settled := none
    snapshots := [st]
    closed := false }

/-- The `error` listener (useFigmaFile.ts lines 265-351). -/
def handleErrorEvent (cfg : SubCfg) (s : SubSession) (d : ErrEventData) : SubSession :=
  -- `if (!lastFetchResponse) return`
  if !cfg.hasFetchResponse then s
  -- `if (!response.ok) \x7b reject(new CodegenError(...)); es.close(); return \x7d`
  else if !cfg.responseOk then
    let e : CodegenError :=
      { name := "Request failed"
        message := cfg.responseErrorMessage
        status := some cfg.responseStatus
        detail := none }
    { s.settle (.rejected e) with closed := true }
  else
    match d with
    | some none =>
      -- parsed JSON without `payload`: `errorPayload?.payload.name` throws,
      -- the async listener dies before `errorCount++`
      s
    | _ =>
      let fields : Option ErrFields := d.bind id
      let isUnrecoverableError :=
        match fields with
        | some f =>
          f.name = some "Task Crashed" || f.name = some "TimeoutError" ||
          f.name = some "Error" || f.name = some "Unknown error"
        | none => false
      let codegenError : CodegenError :=
        { name := ((fields.bind ErrFields.name).getD "Unknown error")
          message := ((fields.bind ErrFields.message).getD "Unknown")
          status := fields.bind ErrFields.status
          detail := fields.bind ErrFields.detail }
      let errorCount' := s.errorCount + 1
      let shouldTerminateRequest :=
        errorCount' > MAX_RETRIES_AFTER_ERROR || isUnrecoverableError
      let s := { s with errorCount := errorCount' }
      if shouldTerminateRequest then
        let s := { s with
          state := { s.state with status := .error, error := some codegenError } }
        (s.emit).settle (.resolved none (some codegenError))
      else
        s

/-- One delivered event, folded through the listener it addresses.
After `es.close()` (set only by the reject path of the `error` listener)
no further events are delivered. -/
def subscribeStep (cfg : SubCfg) (s : SubSession) (e : JobEvent) : SubSession :=
  if s.closed then s else
  match e with
  | .start sid =>
    let s := { s with
      result := { s.result with sessionId := some sid }
      state := { s.state with
        tasks := { s.state.tasks with fetchDesign := ⟨.running⟩ }
        jobSessionId := some sid } }
    s.emit
  | .queueing sid =>
    let s := { s with state := { s.state with jobSessionId := some sid } }
    s.emit
  | .preCodegen msg =>
    if msg = "Anima model built" then
      let s := { s with
        state := { s.state with
          tasks :=
            { fetchDesign := ⟨.finished⟩
              codeGeneration := { s.state.tasks.codeGeneration with status := .running }
              uploadAssets := ⟨.running⟩ } } }
      s.emit
    else s
  | .figmaMetadata fn sfn =>
    { s with result := { s.result with
        figmaFileName := some fn, figmaSelectedFrameName := some sfn } }
  | .aborted =>
    let e : CodegenError := { name := "Aborted", message := "Unknown", status := none, detail := none }
    let s := { s with
      state := { s.state with status := .aborted, result := none, error := some e } }
    (s.emit).settle (.resolved none (some e))
  | .generatingCode st progress files =>
    let s :=
      if st = .success then { s with result := { s.result with files := files } } else s
    let s := { s with
      state := { s.state with
        tasks := { s.state.tasks with
          codeGeneration := { status := .running, progress := progress } } } }
    s.emit
  | .progressMessagesUpdated msgs =>
    let s := { s with state := { s.state with progressMessages := msgs } }
    s.emit
  | .jobStatusUpdated js =>
    let s := { s with state := { s.state with jobStatus := js } }
    s.emit
  | .codegenCompleted =>
    let s := { s with
      state := { s.state with
        tasks := { s.state.tasks with
          codeGeneration := { s.state.tasks.codeGeneration with status := .finished } } } }
    s.emit
  | .generationCompleted =>
    let s := { s with
      state := { s.state with
        tasks := { s.state.tasks with
          codeGeneration := { s.state.tasks.codeGeneration with status := .finished } } } }
    s.emit
  | .assetsUploaded =>
    let s := { s with
      state := { s.state with
        tasks := { s.state.tasks with uploadAssets := ⟨.finished⟩ } } }
    s.emit
  | .assetsList assets =>
    { s with result := { s.result with assets := some assets } }
  | .error d => handleErrorEvent cfg s d
  | .done sid tokenUsage =>
    let s := { s with
      result := { s.result with tokenUsage := some tokenUsage, sessionId := some sid } }
    let s := { s with
      state := { s.state with status := .success, result := some s.result } }
    (s.emit).settle (.resolved (some s.result) none)

/-- `subscribeToJobStream`, run over a finite sequence of delivered events. -/
def subscribeToJobStream (cfg : SubCfg) (events : List JobEvent) : SubSession :=
  events.foldl (subscribeStep cfg) initSession

/-! ## The provider facade (`AnimaSdkProvider`, unnamed provider module)

`createJob` and `attachJob` of the provider. The underlying SDK calls
(`sdkCreateJob` / `sdkAttachJob`, which both run `subscribeToJobStream`) are
abstracted as a `run` parameter so that the guard clauses can be shown to
fire before any stream is opened. -/

/-- A thrown JS error as the provider sees it: the plain guard `Error`, or
one of the typed wrappers `CreateJobError` / `AttachJobError`. -/
inductive JsError where
  | plain (message : String)
  | createJobError (message : String)
  | attachJobError (message : String)
deriving DecidableEq, Repr

/-- `e.message` of a JS error. -/
def JsError.messageOf : JsError → String
  | .plain m => m
  | .createJobError m => m
  | .attachJobError m => m

/-- The provider-level `job.status` values. -/
inductive PJobStatus where
  | idle | pending | success | error
deriving DecidableEq, Repr

/-- `AnimaSdkProvider.createJob` (provider module lines 93-140): the
single-flight guard, then the SDK call; exceptions are wrapped in
`CreateJobError` and rethrown. `run` stands for
`sdkCreateJob(url, 'POST', params, ...)`. -/
def providerCreateJob (jobStatus : PJobStatus)
    (run : Unit → Except JsError (Option PartialResult)) :
    Except JsError (Option PartialResult) :=
  if jobStatus = .pending then
    .error (.plain "A job is already in progress")
  else
    match run () with
    | .ok r => .ok r
    | .error e => .error (.createJobError e.messageOf)

/-- The localStorage key `anima:$\x7bsessionId\x7d:type`. -/
def jobTypeKey (sessionId : String) : String :=
  "anima:" ++ sessionId ++ ":type"

/-- `AnimaSdkProvider.attachJob` (provider module lines 142-200): look up the
persisted job type, reject unknown/invalid types with `AttachJobError`,
otherwise open the attach endpoint `$\x7burl\x7d/$\x7bsessionId\x7d`. `store`
stands for `localStorage.getItem`; `run` for `sdkAttachJob(url, params, ...)`. -/
def providerAttachJob (f2cUrl l2cUrl p2cUrl : String)
    (store : String → Option String) (sessionId : String)
    (run : String → Except JsError (Option PartialResult)) :
    Except JsError (Option PartialResult) :=
  match store (jobTypeKey sessionId) with
  | none =>
    .error (.attachJobError
      ("Cannot attach job " ++ sessionId ++ ": job type not found in local storage"))
  | some storedType =>
    if Bool.not (["f2c", "l2c", "p2c"].contains storedType) then
      .error (.attachJobError
        ("Invalid job type \"" ++ storedType ++ "\" for job " ++ sessionId))
    else
      let url :=
        (if storedType = "f2c" then f2cUrl
         else if storedType = "l2c" then l2cUrl
         else p2cUrl) ++ "/" ++ sessionId
      match run url with
      | .ok r => .ok r
      | .error e => .error (.attachJobError e.messageOf)

/-! ## The SSE loop of `Anima.#processGenerationRequest` (sdk/src/anima.ts)

The reader yields text chunks; the loop buffers them, splits complete lines
on a newline, skips blank and comment lines, `JSON.parse`s `data: ` lines
(`decode` stands for `JSON.parse` plus the shape the switch reads), and
dispatches on `data.type`. An `error` message throws a `CodegenError`; a
`done` message returns the accumulated result; a stream that ends first is
surfaced as the `Connection` error. -/

/-- `buffer.split("\n")` for a one-character separator, on character lists:
every `\n` ends a segment, a trailing `\n` yields a final empty segment. -/
def splitNlChars : List Char → List (List Char)
  | [] => [[]]
  | c :: cs =>
    match splitNlChars cs with
    | [] => [[]]
    | g :: gs => if c = '\n' then [] :: g :: gs else (c :: g) :: gs

/-- `buffer.split("\n")` as used by the read loop. -/
def jsSplitNl (s : String) : List String :=
  (splitNlChars s.data).map String.mk

/-- The whitespace characters relevant to the wire protocol
(`String.prototype.trim` removes these, among other Unicode whitespace). -/
def isJsWhitespace (c : Char) : Bool :=
  c = ' ' || c = '\t' || c = '\n' || c = '\r'

/-- `line.trim()`. -/
def jsTrim (s : String) : String :=
  String.mk (((s.data.dropWhile isJsWhitespace).reverse.dropWhile isJsWhitespace).reverse)

/-- `s.startsWith(p)`. -/
def jsStartsWith (s p : String) : Bool :=
  p.data.isPrefixOf s.data

/-- `s.slice(n)` for a non-negative `n`. -/
def jsDrop (s : String) (n : Nat) : String :=
  String.mk (s.data.drop n)

/-- One parsed SSE message as read by the switch of
`#processGenerationRequest`. `other` covers parseable JSON whose `type`
matches no case (it is silently ignored — there is no `default`). -/
inductive SSEMsg where
  | queueing (sessionId : String)
  | start (sessionId : String)
  | preCodegen (message : String)
  | assetsUploaded
  | assetsList (assets : List Asset)
  | figmaMetadata (figmaFileName figmaSelectedFrameName : String)
  | generatingCode (status : GenStatus) (progress : Nat) (files : Option AnimaFiles)
  | progressMessagesUpdated (msgs : List ProgressMessage)
  | jobStatusUpdated (js : JobStatusMap)
  | codegenCompleted
  | generationCompleted
  | error (errorName : String) (reason : String)
  | done (sessionId : String) (tokenUsage : Nat)
  | other
deriving DecidableEq, Repr

/-- Messages that end the read loop: an in-band `error` (throw) or `done`
(return). Every other case falls through to the next line. -/
def SSEMsg.isTerminal : SSEMsg → Bool
  | .error _ _ => true
  | .done _ _ => true
  | _ => false

/-- Loop state of `#processGenerationRequest`: the result accumulator plus
the trace of messages forwarded to the caller-supplied handler. -/
structure ProcState where
  result : PartialResult
  emitted : List SSEMsg
deriving DecidableEq, Repr

/-- Fresh loop state. -/
def ProcState.init : ProcState :=
  ⟨PartialResult.empty, []⟩

/-- Outcome of processing one line (or a run of lines). -/
inductive LineStep where
  | cont (st : ProcState)
  | finished (r : PartialResult)
  | failed (e : CodegenError)
deriving DecidableEq, Repr

/-- The switch body of `#processGenerationRequest` (anima.ts lines 228-347),
applied to one decoded message. `messageType` is the flow tag
(`codegen` / `l2c` / `p2c` / absent) gating `pre_codegen` and
`figma_metadata`. -/
def applyMsg (messageType : Option String) (st : ProcState) (m : SSEMsg) : LineStep :=
  match m with
  | .queueing _ => .cont { st with emitted := st.emitted ++ [m] }
  | .start sid =>
    .cont { st with
      result := { st.result with sessionId := some sid }
      emitted := st.emitted ++ [m] }
  | .preCodegen _ =>
    if messageType = some "codegen" then
      .cont { st with emitted := st.emitted ++ [m] }
    else .cont st
  | .assetsUploaded => .cont { st with emitted := st.emitted ++ [m] }
  | .assetsList assets =>
    .cont { st with
      result := { st.result with assets := some assets }
      emitted := st.emitted ++ [m] }
  | .figmaMetadata fn sfn =>
    if messageType = some "codegen" then
      .cont { st with
        result := { st.result with
          figmaFileName := some fn, figmaSelectedFrameName := some sfn }
        emitted := st.emitted ++ [m] }
    else .cont st
  | .generatingCode gst _ files =>
    let st :=
      if gst = .success then { st with result := { st.result with files := files } }
      else st
    .cont { st with emitted := st.emitted ++ [m] }
  | .progressMessagesUpdated _ => .cont { st with emitted := st.emitted ++ [m] }
  | .jobStatusUpdated _ => .cont { st with emitted := st.emitted ++ [m] }
  | .codegenCompleted => .cont { st with emitted := st.emitted ++ [m] }
  | .generationCompleted => .cont { st with emitted := st.emitted ++ [m] }
  | .error errorName reason =>
    .failed { name := errorName, message := reason, status := none, detail := none }
  | .done sid tokenUsage =>
    .finished { st.result with tokenUsage := some tokenUsage, sessionId := some sid }
  | .other => .cont st

/-- One line of the inner `for (const line of lines)` loop
(anima.ts lines 216-226): skip blank lines and `:` comments, decode
`data: ` lines (malformed JSON is swallowed and the line is skipped),
dispatch everything else to the switch. -/
def processLine (messageType : Option String) (decode : String → Option SSEMsg)
    (st : ProcState) (line : String) : LineStep :=
  if jsTrim line == "" || jsStartsWith line ":" then
    .cont st
  else if jsStartsWith line "data: " then
    match decode (jsDrop line 6) with
    | none => .cont st
    | some m => applyMsg messageType st m
  else
    .cont st

/-- The complete lines extracted from one chunk, processed in order with
early exit on a terminal message. -/
def runChunkLines (messageType : Option String) (decode : String → Option SSEMsg)
    (st : ProcState) : List String → LineStep
  | [] => .cont st
  | l :: ls =>
    match processLine messageType decode st l with
    | .cont st' => runChunkLines messageType decode st' ls
    | .finished r => .finished r
    | .failed e => .failed e

/-- Outcome of the outer `while (true)` read loop. -/
inductive StreamOut where
  | ranOut (st : ProcState) (buffer : String)
  | finished (r : PartialResult)
  | failed (e : CodegenError)
deriving DecidableEq, Repr

/-- The outer read loop: append the chunk to the buffer, split on newlines,
keep the last incomplete line buffered, process the complete lines. When the
reader reports completion (`done = true`) the loop breaks with whatever is
left in the buffer unprocessed. -/
def runStream (messageType : Option String) (decode : String → Option SSEMsg)
    (st : ProcState) (buffer : String) : List String → StreamOut
  | [] => .ranOut st buffer
  | c :: cs =>
    let parts := jsSplitNl (buffer ++ c)
    match runChunkLines messageType decode st parts.dropLast with
    | .cont st' => runStream messageType decode st' (parts.getLastD "") cs
    | .finished r => .finished r
    | .failed e => .failed e

/-- The `Connection` error thrown after the loop when the stream closed
before a `done` message (anima.ts lines 355-359). -/
def connectionClosedError : CodegenError :=
  { name := "Connection"
    message := "Connection closed before the \x27done\x27 message"
    status := some 500
    detail := none }

/-- `Anima.#processGenerationRequest`, from the first `reader.read()` on: the
stream of decoded text chunks in, the settled result or thrown
`CodegenError` out. -/
def processGenerationRequest (messageType : Option String)
    (decode : String → Option SSEMsg) (chunks : List String) :
    Except CodegenError PartialResult :=
  match runStream messageType decode ProcState.init "" chunks with
  | .ranOut _ _ => .error connectionClosedError
  | .finished r => .ok r
  | .failed e => .error e

/-! ## `createJob` local-asset post-processing (useFigmaFile.ts job module) -/

/-- The caller-side local asset storage descriptor (`LocalAssetsStorage`). -/
inductive LocalAssetsStorage where
  | path (path : String)
  | filePathRef (filePath referencePath : String)
deriving DecidableEq, Repr

/-- `path.replace(/^\\//, "")`: strip one leading slash. -/
def stripLeadingSlash (p : String) : String :=
  if jsStartsWith p "/" then jsDrop p 1 else p

/-- `getAssetsLocalStrategyParams` (useFigmaFile.ts job module lines 118-136). -/
def getAssetsLocalStrategyParams (las : LocalAssetsStorage) : String × String :=
  match las with
  | .path p => (stripLeadingSlash p, if p = "/" then "" else p)
  | .filePathRef fp rp => (stripLeadingSlash fp, if rp = "/" then "" else rp)

/-- What one settled `fetch(asset.url)` hands the download closure: the HTTP
status and `arrayBufferToBase64` of whatever body came back. -/
structure FetchResponse where
  status : Nat
  bodyBase64 : String
deriving DecidableEq, Repr

/-- The per-asset download closure of `createJob` (useFigmaFile.ts job
module lines 421-428): `await fetch(asset.url)`, `await response.arrayBuffer()`,
base64-encode. `fetchAsset a = none` is a rejected `fetch` (network
error/abort), which rejects the closure; `fetchAsset a = some resp` is any
HTTP response at all — the closure never checks `response.ok`, so a 404
fulfills with the base64 of its error body. -/
def downloadAssetOutcome (fetchAsset : Asset → Option FetchResponse)
    (a : Asset) : Option String :=
  (fetchAsset a).map FetchResponse.bodyBase64

/-- The `Promise.allSettled` splice loop of `createJob` (useFigmaFile.ts job
module lines 430-444): write each fulfilled download into the file map at
`filePath/assetName` (or `assetName` when `filePath` is empty); rejected
downloads are skipped. -/
def downloadAndInjectAssets (filePath : String) (download : Asset → Option String)
    (assets : List Asset) (files : AnimaFiles) : AnimaFiles :=
  assets.foldl
    (fun fs asset =>
      match download asset with
      | some base64 =>
        let assetPath := if filePath ≠ "" then filePath ++ "/" ++ asset.name else asset.name
        insertFile fs assetPath { content := base64, isBinary := true }
      | none => fs)
    files

/-- The post-stream tail of `createJob` (useFigmaFile.ts job module lines
409-447): when the caller asked for the local strategy and the result lists
assets, run the fan-out over `fetch` and splice the settled outcomes;
`none` models the `TypeError` the source would hit writing into an absent
`result.files`. -/
def createJobPostProcess (localStorageParam : Option LocalAssetsStorage)
    (fetchAsset : Asset → Option FetchResponse) (r : PartialResult) :
    Option PartialResult :=
  match localStorageParam with
  | some las =>
    match r.assets with
    | some assets =>
      if assets.length ≠ 0 then
        match r.files with
        | some fs =>
          some { r with
            files := some (downloadAndInjectAssets
              (getAssetsLocalStrategyParams las).1
              (downloadAssetOutcome fetchAsset) assets fs) }
        | none => none
      else some r
    | none => some r
  | none => some r

/-! ## Observables used by the spec properties -/

/-- Terminal values of `Status`: `success`, `aborted`, `error`. -/
def isTerminalStatus : Status → Bool
  | .success => true
  | .aborted => true
  | .error => true
  | _ => false

/-- The spec invariant on observed snapshot statuses, as claimed: a
(possibly repeating) prefix of `idle, pending, success|aborted|error` in
which no transition leaves a terminal state — i.e. once a terminal status
appears, every later snapshot repeats that same status. -/
def neverLeavesTerminal : List Status → Bool
  | [] => true
  | s :: rest =>
    if isTerminalStatus s then rest.all (· = s) else neverLeavesTerminal rest

/-- The shape the snapshot statuses actually have: a run of `pending`
followed by a run of (possibly different) terminal statuses. -/
def pendingThenTerminal : List Status → Bool
  | [] => true
  | .pending :: rest => pendingThenTerminal rest
  | s :: rest => isTerminalStatus s && rest.all isTerminalStatus

/-- Forward order on sub-task statuses: `pending → running → finished`. -/
def taskRank : TaskStatus → Nat
  | .pending => 0
  | .running => 1
  | .finished => 2

/-- The spec invariant on one sub-task, as claimed: the observed statuses
only move forward. -/
def taskMonotone : List TaskStatus → Bool
  | [] => true
  | [_] => true
  | a :: b :: rest => decide (taskRank a ≤ taskRank b) && taskMonotone (b :: rest)

/-- Snapshot statuses of a subscription run. -/
def snapStatuses (s : SubSession) : List Status :=
  s.snapshots.map CodegenState.status

/-! ## Helper lemmas -/

theorem subscribeToJobStream_append (cfg : SubCfg) (l₁ l₂ : List JobEvent) :
    subscribeToJobStream cfg (l₁ ++ l₂) =
      l₂.foldl (subscribeStep cfg) (subscribeToJobStream cfg l₁) := by
  unfold subscribeToJobStream
  exact List.foldl_append _ _ _ _

theorem subscribeStep_closed_eq (cfg : SubCfg) (s : SubSession) (e : JobEvent)
    (hok : cfg.responseOk = true) :
    (subscribeStep cfg s e).closed = s.closed := by
  by_cases hc : s.closed
  · simp [subscribeStep, hc]
  · cases e with
    | error d =>
      simp only [subscribeStep, hc, Bool.false_eq_true, if_false]
      unfold handleErrorEvent
      by_cases hf : cfg.hasFetchResponse
      · rcases d with _ | (_ | f) <;>
          simp [hf, hok, hc, SubSession.emit, SubSession.settle] <;>
          split <;> simp [hc]
      · simp [hf, hc]
    | _ =>
      simp [subscribeStep, hc, SubSession.emit, SubSession.settle] <;>
        split <;> simp [hc]

theorem subscribeToJobStream_closed (cfg : SubCfg) (events : List JobEvent)
    (hok : cfg.responseOk = true) :
    (subscribeToJobStream cfg events).closed = false := by
  unfold subscribeToJobStream
  induction events using List.reverseRecOn with
  | nil => rfl
  | append_singleton l e ih =>
    rw [List.foldl_append]
    simpa [subscribeStep_closed_eq cfg _ e hok] using ih

/-! ## Claims -/

/-- Claim C1: ten consecutive transient `error` frames followed by `done`
still resolve the job successfully; eleven transient `error` frames force
the job terminal with status `error` and the fallback "Unknown error";
the per-job retry counter increments on every transient error frame, and
(while the job is unsettled) termination occurs exactly when the counter
exceeds the fixed ceiling `MAX_RETRIES_AFTER_ERROR = 10`. -/
theorem retry_ceiling_behavior :
    ((subscribeToJobStream SubCfg.ok
        (List.replicate 10 (JobEvent.error none) ++ [JobEvent.done "s" 1])).settled =
          some (.resolved
            (some { PartialResult.empty with sessionId := some "s", tokenUsage := some 1 })
            none)
      ∧ (subscribeToJobStream SubCfg.ok
          (List.replicate 10 (JobEvent.error none) ++ [JobEvent.done "s" 1])).state.status =
            .success)
    ∧ ((subscribeToJobStream SubCfg.ok (List.replicate 11 (JobEvent.error none))).settled =
          some (.resolved none (some ⟨"Unknown error", "Unknown", none, none⟩))
      ∧ (subscribeToJobStream SubCfg.ok
          (List.replicate 11 (JobEvent.error none))).state.status = .error)
    ∧ (∀ s : SubSession, s.closed = false →
        (subscribeStep SubCfg.ok s (JobEvent.error none)).errorCount = s.errorCount + 1
        ∧ (s.settled = none →
            ((subscribeStep SubCfg.ok s (JobEvent.error none)).settled.isSome ↔
              s.errorCount + 1 > MAX_RETRIES_AFTER_ERROR))) := by
  refine ⟨⟨rfl, rfl⟩, ⟨rfl, rfl⟩, fun s hc => ?_⟩
  constructor
  · simp only [subscribeStep, hc, Bool.false_eq_true, if_false]
    unfold handleErrorEvent
    simp only [SubCfg.ok, Bool.not_true, Bool.false_eq_true, if_false, Option.none_bind]
    split <;> simp [SubSession.emit, SubSession.settle]
  · intro hs
    simp only [subscribeStep, hc, Bool.false_eq_true, if_false]
    unfold handleErrorEvent
    simp only [SubCfg.ok, Bool.not_true, Bool.false_eq_true, if_false, Option.none_bind]
    by_cases hgt : MAX_RETRIES_AFTER_ERROR < s.errorCount + 1
    · simp [hgt, SubSession.emit, SubSession.settle, hs]
    · simp [hgt, hs]

/-- Witness for C1: on the fresh session a transient error frame increments
the counter from 0 to 1 and does not settle the job. -/
theorem retry_ceiling_behavior_witness :
    (subscribeStep SubCfg.ok initSession (JobEvent.error none)).errorCount =
      initSession.errorCount + 1 :=
  (retry_ceiling_behavior.2.2 initSession rfl).1

/-- Claim C2: from any reachable unsettled state — any event sequence, any
retry-counter value — a single in-band `error` frame whose payload name is
"Task Crashed" terminates the job immediately: the snapshot status becomes
`error` and the job settles with an error named "Task Crashed". -/
theorem fatal_short_circuit (events : List JobEvent)
    (h : (subscribeToJobStream SubCfg.ok events).settled = none) :
    (subscribeToJobStream SubCfg.ok
        (events ++ [JobEvent.error (some (some ⟨some "Task Crashed", none, none, none⟩))])).settled =
      some (.resolved none (some ⟨"Task Crashed", "Unknown", none, none⟩))
    ∧ (subscribeToJobStream SubCfg.ok
        (events ++ [JobEvent.error (some (some ⟨some "Task Crashed", none, none, none⟩))])).state.status =
      Status.error
    ∧ (subscribeToJobStream SubCfg.ok
        (events ++ [JobEvent.error (some (some ⟨some "Task Crashed", none, none, none⟩))])).state.error =
      some ⟨"Task Crashed", "Unknown", none, none⟩ := by
  rw [subscribeToJobStream_append]
  have hc : (subscribeToJobStream SubCfg.ok events).closed = false :=
    subscribeToJobStream_closed SubCfg.ok events rfl
  set s := subscribeToJobStream SubCfg.ok events with hsdef
  simp only [List.foldl_cons, List.foldl_nil]
  simp only [subscribeStep, hc, Bool.false_eq_true, if_false]
  unfold handleErrorEvent
  simp [SubCfg.ok, SubSession.emit, SubSession.settle, h]

/-- Witness for C2: the empty event prefix is unsettled, and the fatal frame
then terminates the fresh job at retry counter 0. -/
theorem fatal_short_circuit_witness :
    (subscribeToJobStream SubCfg.ok
        [JobEvent.error (some (some ⟨some "Task Crashed", none, none, none⟩))]).settled =
      some (.resolved none (some ⟨"Task Crashed", "Unknown", none, none⟩)) :=
  (fatal_short_circuit [] rfl).1

/-- Counterexample to claim C3: a `done` event with no prior successful
`generating_code` does not reject — the job resolves successfully, with
status `success` and a result whose file map is absent. -/
theorem done_without_files_resolves_counterexample :
    (subscribeToJobStream SubCfg.ok [JobEvent.done "s1" 7]).settled =
      some (.resolved
        (some { PartialResult.empty with sessionId := some "s1", tokenUsage := some 7 })
        none)
    ∧ (subscribeToJobStream SubCfg.ok [JobEvent.done "s1" 7]).state.status = Status.success
    ∧ (subscribeToJobStream SubCfg.ok [JobEvent.done "s1" 7]).result.files = none :=
  ⟨rfl, rfl, rfl⟩

/-- Claim C3 as amended: neither finalizer asserts a non-empty file map on
`done`. In the core SSE loop a `done` message returns the accumulated
result unconditionally (whatever `files` holds, including absent), and in
the stream reducer a `done` event resolves the unsettled job successfully
with the accumulated partial result. -/
theorem done_finalizes_without_files_check :
    (∀ (messageType : Option String) (st : ProcState) (sid : String) (tokenUsage : Nat),
      applyMsg messageType st (.done sid tokenUsage) =
        .finished { st.result with tokenUsage := some tokenUsage, sessionId := some sid })
    ∧ (∀ (cfg : SubCfg) (s : SubSession) (sid : String) (tokenUsage : Nat),
        s.closed = false → s.settled = none →
        (subscribeStep cfg s (JobEvent.done sid tokenUsage)).settled =
          some (.resolved
            (some { s.result with tokenUsage := some tokenUsage, sessionId := some sid })
            none)) := by
  refine ⟨fun _ _ _ _ => rfl, fun cfg s sid tokenUsage hc hs => ?_⟩
  simp [subscribeStep, hc, SubSession.emit, SubSession.settle, hs]

/-- Witness for the amended C3: the fresh session, handed only a `done`,
settles successfully with no `files` field. -/
theorem done_finalizes_without_files_check_witness :
    (subscribeStep SubCfg.ok initSession (JobEvent.done "s1" 7)).settled =
      some (.resolved
        (some { PartialResult.empty with tokenUsage := some 7, sessionId := some "s1" })
        none) :=
  done_finalizes_without_files_check.2 SubCfg.ok initSession "s1" 7 rfl rfl

/-- Counterexample to claim C5: a `generating_code` event arriving after
`codegen_completed` moves `codeGeneration` from `finished` back to
`running` in the emitted snapshots — the observed sub-task statuses
regress. -/
theorem subtask_regression_counterexample :
    (subscribeToJobStream SubCfg.ok
        [JobEvent.codegenCompleted, JobEvent.generatingCode .running 5 none]).snapshots.map
        (fun st => st.tasks.codeGeneration.status) =
      [.pending, .finished, .running]
    ∧ taskMonotone [TaskStatus.pending, .finished, .running] = false :=
  ⟨rfl, rfl⟩

/-- Claim C5 as amended: a sub-task status never regresses under any event
except the three listeners that assign a fixed status unconditionally —
`start` (fetchDesign ← running), `pre_codegen "Anima model built"`
(codeGeneration, uploadAssets ← running) and `generating_code`
(codeGeneration ← running). Whenever the incoming event is not such an
assignment on an already-`finished` task, every sub-task status moves only
forward. -/
theorem subtask_forward_progress (cfg : SubCfg) (s : SubSession) (e : JobEvent)
    (hstart : ∀ sid, e = .start sid → s.state.tasks.fetchDesign.status ≠ .finished)
    (hpre : e = .preCodegen "Anima model built" →
      s.state.tasks.codeGeneration.status ≠ .finished
      ∧ s.state.tasks.uploadAssets.status ≠ .finished)
    (hgen : ∀ gst p fs, e = .generatingCode gst p fs →
      s.state.tasks.codeGeneration.status ≠ .finished) :
    taskRank s.state.tasks.fetchDesign.status ≤
      taskRank (subscribeStep cfg s e).state.tasks.fetchDesign.status
    ∧ taskRank s.state.tasks.codeGeneration.status ≤
      taskRank (subscribeStep cfg s e).state.tasks.codeGeneration.status
    ∧ taskRank s.state.tasks.uploadAssets.status ≤
      taskRank (subscribeStep cfg s e).state.tasks.uploadAssets.status := by
  by_cases hc : s.closed
  · simp [subscribeStep, hc]
  · cases e with
    | start sid =>
      have h := hstart sid rfl
      simp only [subscribeStep, hc, Bool.false_eq_true, if_false, SubSession.emit]
      refine ⟨?_, le_refl _, le_refl _⟩
      cases hfd : s.state.tasks.fetchDesign.status <;> simp_all [taskRank]
    | preCodegen msg =>
      by_cases hmsg : msg = "Anima model built"
      · subst hmsg
        obtain ⟨h1, h2⟩ := hpre rfl
        simp only [subscribeStep, hc, Bool.false_eq_true, if_false, if_true,
          SubSession.emit, if_pos rfl]
        refine ⟨?_, ?_, ?_⟩
        · cases s.state.tasks.fetchDesign.status <;> simp [taskRank]
        · cases hcg : s.state.tasks.codeGeneration.status <;> simp_all [taskRank]
        · cases hua : s.state.tasks.uploadAssets.status <;> simp_all [taskRank]
      · simp [subscribeStep, hc, hmsg]
    | generatingCode gst p fs =>
      have h := hgen gst p fs rfl
      simp only [subscribeStep, hc, Bool.false_eq_true, if_false, SubSession.emit]
      split <;>
      · refine ⟨le_refl _, ?_, le_refl _⟩
        cases hcg : s.state.tasks.codeGeneration.status <;> simp_all [taskRank]
    | error d =>
      simp only [subscribeStep, hc, Bool.false_eq_true, if_false]
      unfold handleErrorEvent
      by_cases hf : cfg.hasFetchResponse
      · by_cases hok : cfg.responseOk
        · rcases d with _ | (_ | fields) <;>
            simp [hf, hok, SubSession.emit, SubSession.settle] <;>
            split <;> simp [SubSession.emit, SubSession.settle]
        · simp [hf, hok, SubSession.settle]
      · simp [hf]
    | codegenCompleted =>
      simp only [subscribeStep, hc, Bool.false_eq_true, if_false, SubSession.emit]
      exact ⟨le_refl _, by cases s.state.tasks.codeGeneration.status <;> simp [taskRank],
        le_refl _⟩
    | generationCompleted =>
      simp only [subscribeStep, hc, Bool.false_eq_true, if_false, SubSession.emit]
      exact ⟨le_refl _, by cases s.state.tasks.codeGeneration.status <;> simp [taskRank],
        le_refl _⟩
    | assetsUploaded =>
      simp only [subscribeStep, hc, Bool.false_eq_true, if_false, SubSession.emit]
      exact ⟨le_refl _, le_refl _,
        by cases s.state.tasks.uploadAssets.status <;> simp [taskRank]⟩
    | _ =>
      simp [subscribeStep, hc, SubSession.emit, SubSession.settle]

/-- Witness for the amended C5: on the fresh session (no task finished) a
`generating_code` event moves every sub-task status only forward. -/
theorem subtask_forward_progress_witness :
    taskRank initSession.state.tasks.codeGeneration.status ≤
      taskRank (subscribeStep SubCfg.ok initSession
        (JobEvent.generatingCode .running 5 none)).state.tasks.codeGeneration.status :=
  (subtask_forward_progress SubCfg.ok initSession (JobEvent.generatingCode .running 5 none)
    (fun _ h => by cases h) (fun h => by cases h)
    (fun _ _ _ _ => by exact fun h => by cases h)).2.1

/-! ## Snapshot status chain (claim C4) -/

theorem all_pending_ptt (l : List Status) (h : ∀ x ∈ l, x = Status.pending) :
    pendingThenTerminal l = true := by
  induction l with
  | nil => rfl
  | cons a t ih =>
    have ha : a = Status.pending := h a (List.mem_cons_self a t)
    subst ha
    exact ih (fun x hx => h x (List.mem_cons_of_mem _ hx))

theorem ptt_append_terminal (l : List Status) (t : Status)
    (hl : pendingThenTerminal l = true) (ht : isTerminalStatus t = true) :
    pendingThenTerminal (l ++ [t]) = true := by
  induction l with
  | nil => cases t <;> simp_all [pendingThenTerminal, isTerminalStatus]
  | cons a l ih =>
    cases a <;> simp_all [pendingThenTerminal, isTerminalStatus, List.all_append]

/-- The invariant maintained by every listener: snapshot statuses are a run
of `pending` followed by terminal statuses, the live status is `pending` or
terminal, and while it is `pending` every delivered snapshot was `pending`. -/
def SnapInv (s : SubSession) : Prop :=
  pendingThenTerminal (snapStatuses s) = true
  ∧ (s.state.status = Status.pending ∨ isTerminalStatus s.state.status = true)
  ∧ (s.state.status = Status.pending → ∀ x ∈ snapStatuses s, x = Status.pending)

theorem snapInv_of_same (s s' : SubSession) (h : SnapInv s)
    (hsnap : s'.snapshots = s.snapshots) (hst : s'.state.status = s.state.status) :
    SnapInv s' := by
  obtain ⟨h1, h2, h3⟩ := h
  refine ⟨?_, ?_, ?_⟩
  · simpa [snapStatuses, hsnap] using h1
  · rw [hst]; exact h2
  · intro hp
    rw [hst] at hp
    simpa [snapStatuses, hsnap] using h3 hp

theorem snapInv_of_emit (s s' : SubSession) (h : SnapInv s)
    (hsnap : s'.snapshots = s.snapshots ++ [s'.state])
    (hst : s'.state.status = s.state.status ∨ isTerminalStatus s'.state.status = true) :
    SnapInv s' := by
  obtain ⟨h1, h2, h3⟩ := h
  have hstat : snapStatuses s' = snapStatuses s ++ [s'.state.status] := by
    simp [snapStatuses, hsnap]
  have hpt : s'.state.status = Status.pending ∨ isTerminalStatus s'.state.status = true := by
    rcases hst with he | ht
    · rw [he]; exact h2
    · exact Or.inr ht
  have hold : s'.state.status = Status.pending → s.state.status = Status.pending := by
    intro hp
    rcases hst with he | ht
    · rw [← he]; exact hp
    · rw [hp] at ht; simp [isTerminalStatus] at ht
  refine ⟨?_, hpt, ?_⟩
  · rcases hpt with hp | ht
    · apply all_pending_ptt
      rw [hstat]
      intro x hx
      rcases List.mem_append.mp hx with hx | hx
      · exact h3 (hold hp) x hx
      · simp at hx; rw [hx]; exact hp
    · rw [hstat]; exact ptt_append_terminal _ _ h1 ht
  · intro hp
    rw [hstat]
    intro x hx
    rcases List.mem_append.mp hx with hx | hx
    · exact h3 (hold hp) x hx
    · simp at hx; rw [hx]; exact hp

theorem snapInv_settle (s : SubSession) (o : Settled) (h : SnapInv s) :
    SnapInv (s.settle o) :=
  snapInv_of_same s _ h rfl rfl

theorem snapInv_step (cfg : SubCfg) (s : SubSession) (e : JobEvent) (h : SnapInv s) :
    SnapInv (subscribeStep cfg s e) := by
  by_cases hc : s.closed
  · simpa [subscribeStep, hc] using h
  · rw [Bool.not_eq_true] at hc
    cases e with
    | start sid =>
      simp only [subscribeStep, hc, Bool.false_eq_true, if_false]
      exact snapInv_of_emit s _ h rfl (Or.inl rfl)
    | queueing sid =>
      simp only [subscribeStep, hc, Bool.false_eq_true, if_false]
      exact snapInv_of_emit s _ h rfl (Or.inl rfl)
    | preCodegen msg =>
      simp only [subscribeStep, hc, Bool.false_eq_true, if_false]
      split
      · exact snapInv_of_emit s _ h rfl (Or.inl rfl)
      · exact h
    | figmaMetadata fn sfn =>
      simp only [subscribeStep, hc, Bool.false_eq_true, if_false]
      exact snapInv_of_same s _ h rfl rfl
    | aborted =>
      simp only [subscribeStep, hc, Bool.false_eq_true, if_false]
      exact snapInv_settle _ _ (snapInv_of_emit s _ h rfl (Or.inr rfl))
    | generatingCode gst p fs =>
      simp only [subscribeStep, hc, Bool.false_eq_true, if_false]
      split
      · exact snapInv_of_emit s _ h rfl (Or.inl rfl)
      · exact snapInv_of_emit s _ h rfl (Or.inl rfl)
    | progressMessagesUpdated msgs =>
      simp only [subscribeStep, hc, Bool.false_eq_true, if_false]
      exact snapInv_of_emit s _ h rfl (Or.inl rfl)
    | jobStatusUpdated js =>
      simp only [subscribeStep, hc, Bool.false_eq_true, if_false]
      exact snapInv_of_emit s _ h rfl (Or.inl rfl)
    | codegenCompleted =>
      simp only [subscribeStep, hc, Bool.false_eq_true, if_false]
      exact snapInv_of_emit s _ h rfl (Or.inl rfl)
    | generationCompleted =>
      simp only [subscribeStep, hc, Bool.false_eq_true, if_false]
      exact snapInv_of_emit s _ h rfl (Or.inl rfl)
    | assetsUploaded =>
      simp only [subscribeStep, hc, Bool.false_eq_true, if_false]
      exact snapInv_of_emit s _ h rfl (Or.inl rfl)
    | assetsList assets =>
      simp only [subscribeStep, hc, Bool.false_eq_true, if_false]
      exact snapInv_of_same s _ h rfl rfl
    | error d =>
      simp only [subscribeStep, hc, Bool.false_eq_true, if_false]
      unfold handleErrorEvent
      split
      · exact h
      · split
        · exact snapInv_of_same s _ h rfl rfl
        · split
          · exact h
          · dsimp only
            split
            · exact snapInv_settle _ _ (snapInv_of_emit s _ h rfl (Or.inr rfl))
            · exact snapInv_of_same s _ h rfl rfl
    | done sid tokenUsage =>
      simp only [subscribeStep, hc, Bool.false_eq_true, if_false]
      exact snapInv_settle _ _ (snapInv_of_emit s _ h rfl (Or.inr rfl))

theorem snapInv_init : SnapInv initSession := by
  refine ⟨rfl, Or.inl rfl, ?_⟩
  intro _ x hx
  simp [initSession, snapStatuses, initialProgress] at hx
  exact hx

theorem snapInv_run (cfg : SubCfg) (events : List JobEvent) :
    SnapInv (subscribeToJobStream cfg events) := by
  unfold subscribeToJobStream
  induction events using List.reverseRecOn with
  | nil => exact snapInv_init
  | append_singleton l e ih =>
    rw [List.foldl_append]
    exact snapInv_step cfg _ e ih

/-- Counterexample to claim C4: after `done` the listeners stay attached, so
an `aborted` frame arriving after `done` emits a snapshot whose status
leaves the terminal `success` state — the observed statuses are
`pending, success, aborted`. -/
theorem status_leaves_terminal_counterexample :
    snapStatuses (subscribeToJobStream SubCfg.ok [JobEvent.done "s" 1, JobEvent.aborted]) =
      [Status.pending, Status.success, Status.aborted]
    ∧ neverLeavesTerminal [Status.pending, Status.success, Status.aborted] = false :=
  ⟨rfl, rfl⟩

/-- Claim C4 as amended: for every event sequence the snapshot statuses are
a run of `pending` followed by a run of terminal statuses — `idle` is never
delivered and no snapshot returns to `pending` after a terminal one; but
the terminal value itself may change when further terminal frames arrive
after termination, so the strict never-leaves-terminal reading fails. -/
theorem snapshot_status_chain (cfg : SubCfg) (events : List JobEvent) :
    pendingThenTerminal (snapStatuses (subscribeToJobStream cfg events)) = true :=
  (snapInv_run cfg events).1

/-- Counterexample to claim C6: at the claim's concrete input — two listed
assets, the first fetch answering 200 and the second answering 404 — the
splice loop injects TWO entries, not one: the download closure never checks
`response.ok`, so the 404 fulfills and its base64-encoded error body is
spliced into the file map like any success. -/
theorem http_error_asset_still_spliced_counterexample :
    createJobPostProcess (some (.path "/assets"))
      (fun a => if a.name = "a.png" then some ⟨200, "QUJD"⟩ else some ⟨404, "Tm90Rm91bmQ"⟩)
      { PartialResult.empty with
          assets := some [⟨"a.png", "u1"⟩, ⟨"b.png", "u2"⟩], files := some [] } =
      some { PartialResult.empty with
          assets := some [⟨"a.png", "u1"⟩, ⟨"b.png", "u2"⟩]
          files := some [("assets/a.png", ⟨"QUJD", true⟩),
            ("assets/b.png", ⟨"Tm90Rm91bmQ", true⟩)] }
    ∧ [("assets/a.png", (⟨"QUJD", true⟩ : FileEntry)),
        ("assets/b.png", ⟨"Tm90Rm91bmQ", true⟩)].length = 2 :=
  ⟨by decide, rfl⟩

/-- Claim C6 as amended: the fan-out collects the settled outcome of every
listed asset and splices each fulfilled download at the caller-specified
path, silently omitting only downloads whose `fetch` rejects (network
failure/abort). An HTTP error response such as a 404 is not a failure to
this loop — there is no `response.ok` check, so its body is base64-encoded
and spliced too. Hence: with one fetch settling (whatever its status) and
the other rejecting, exactly one entry is injected; with both settling,
both are injected. -/
theorem local_assets_settled_splice (las : LocalAssetsStorage)
    (fetchAsset : Asset → Option FetchResponse) (r : PartialResult)
    (a₁ a₂ : Asset) (resp : FetchResponse) (fs : AnimaFiles)
    (hassets : r.assets = some [a₁, a₂]) (hfiles : r.files = some fs) :
    (fetchAsset a₁ = some resp → fetchAsset a₂ = none →
      createJobPostProcess (some las) fetchAsset r =
        some { r with files := some (insertFile fs
          (if (getAssetsLocalStrategyParams las).1 ≠ "" then
            (getAssetsLocalStrategyParams las).1 ++ "/" ++ a₁.name
          else a₁.name)
          { content := resp.bodyBase64, isBinary := true }) })
    ∧ (∀ resp₂ : FetchResponse, fetchAsset a₁ = some resp →
        fetchAsset a₂ = some resp₂ →
        createJobPostProcess (some las) fetchAsset r =
          some { r with files := some (insertFile
            (insertFile fs
              (if (getAssetsLocalStrategyParams las).1 ≠ "" then
                (getAssetsLocalStrategyParams las).1 ++ "/" ++ a₁.name
              else a₁.name)
              { content := resp.bodyBase64, isBinary := true })
            (if (getAssetsLocalStrategyParams las).1 ≠ "" then
              (getAssetsLocalStrategyParams las).1 ++ "/" ++ a₂.name
            else a₂.name)
            { content := resp₂.bodyBase64, isBinary := true }) }) := by
  constructor
  · intro h₁ h₂
    simp [createJobPostProcess, hassets, hfiles, downloadAndInjectAssets,
      downloadAssetOutcome, h₁, h₂]
  · intro resp₂ h₁ h₂
    simp [createJobPostProcess, hassets, hfiles, downloadAndInjectAssets,
      downloadAssetOutcome, h₁, h₂]

/-- Witness for the amended C6: first fetch settles with a 200 body, second
fetch rejects; exactly one entry is injected, at `assets/a.png`. -/
theorem local_assets_settled_splice_witness :
    createJobPostProcess (some (.path "/assets"))
      (fun a => if a.name = "a.png" then some ⟨200, "QUJD"⟩ else none)
      { PartialResult.empty with
          assets := some [⟨"a.png", "u1"⟩, ⟨"b.png", "u2"⟩], files := some [] } =
      some { PartialResult.empty with
          assets := some [⟨"a.png", "u1"⟩, ⟨"b.png", "u2"⟩]
          files := some [("assets/a.png", ⟨"QUJD", true⟩)] } := by
  have h := (local_assets_settled_splice (.path "/assets")
    (fun a => if a.name = "a.png" then some ⟨200, "QUJD"⟩ else none)
    { PartialResult.empty with
        assets := some [⟨"a.png", "u1"⟩, ⟨"b.png", "u2"⟩], files := some [] }
    ⟨"a.png", "u1"⟩ ⟨"b.png", "u2"⟩ ⟨200, "QUJD"⟩ [] rfl rfl).1
    (by decide) (by decide)
  rw [h]
  decide

/-- Claim C7: a `data: ` line whose payload is not parseable JSON is
swallowed and skipped — the loop state is unchanged, nothing is forwarded
to the handler, no error is raised, and processing continues with the next
line. -/
theorem malformed_frame_skipped (messageType : Option String)
    (decode : String → Option SSEMsg) (st : ProcState) (line : String)
    (rest : List String)
    (hdata : jsStartsWith line "data: " = true)
    (hdec : decode (jsDrop line 6) = none) :
    processLine messageType decode st line = .cont st
    ∧ runChunkLines messageType decode st (line :: rest) =
        runChunkLines messageType decode st rest := by
  have h1 : processLine messageType decode st line = .cont st := by
    unfold processLine
    split
    · rfl
    · simp [hdata, hdec]
  exact ⟨h1, by simp [runChunkLines, h1]⟩

/-- Witness for C7: the concrete line `data: x` with a decoder that rejects
`x` is skipped without touching the fresh loop state. -/
theorem malformed_frame_skipped_witness :
    processLine none (fun _ => none) ProcState.init "data: x" = .cont ProcState.init
    ∧ runChunkLines none (fun _ => none) ProcState.init ["data: x"] =
        runChunkLines none (fun _ => none) ProcState.init [] :=
  malformed_frame_skipped none (fun _ => none) ProcState.init "data: x" []
    (by decide) rfl

/-- Claim C8: the provider `createJob` rejects immediately with "A job is
already in progress" whenever the current job status is `pending` — for
every possible underlying SDK call, i.e. before any stream is opened — and
proceeds with the SDK call for every other status. -/
theorem create_job_single_flight :
    (∀ run : Unit → Except JsError (Option PartialResult),
      providerCreateJob .pending run = .error (.plain "A job is already in progress"))
    ∧ (∀ (st : PJobStatus) (run : Unit → Except JsError (Option PartialResult))
        (r : Option PartialResult), st ≠ .pending → run () = .ok r →
        providerCreateJob st run = .ok r)
    ∧ (∀ (st : PJobStatus) (run : Unit → Except JsError (Option PartialResult))
        (e : JsError), st ≠ .pending → run () = .error e →
        providerCreateJob st run = .error (.createJobError e.messageOf)) := by
  refine ⟨fun run => rfl, ?_, ?_⟩ <;>
  · intro st run x hst hrun
    simp [providerCreateJob, hst, hrun]

/-- Witness for C8: with a pending job the guard fires no matter what the
SDK call would do; with an idle job the same call goes through. -/
theorem create_job_single_flight_witness :
    providerCreateJob .pending (fun _ => .ok none) =
      .error (.plain "A job is already in progress")
    ∧ providerCreateJob .idle (fun _ => .ok none) = .ok none :=
  ⟨create_job_single_flight.1 _,
    create_job_single_flight.2.1 .idle _ none (by decide) rfl⟩

/-- Claim C9: the provider `attachJob` requires a persisted job type for the
session: with none persisted it fails with the typed `AttachJobError`
("job type not found in local storage"), with an invalid persisted type it
fails with the typed `AttachJobError` ("Invalid job type") — in both cases
independently of (and before) any stream being opened — and with a valid
persisted type it opens the attach endpoint `url/sessionId` and propagates
the pipeline result. -/
theorem attach_job_requires_persisted_type (f2cUrl l2cUrl p2cUrl : String)
    (store : String → Option String) (sessionId : String)
    (run : String → Except JsError (Option PartialResult)) :
    (store (jobTypeKey sessionId) = none →
      providerAttachJob f2cUrl l2cUrl p2cUrl store sessionId run =
        .error (.attachJobError
          ("Cannot attach job " ++ sessionId ++ ": job type not found in local storage")))
    ∧ (∀ t, store (jobTypeKey sessionId) = some t →
        (["f2c", "l2c", "p2c"].contains t) = false →
        providerAttachJob f2cUrl l2cUrl p2cUrl store sessionId run =
          .error (.attachJobError ("Invalid job type \"" ++ t ++ "\" for job " ++ sessionId)))
    ∧ (∀ r, store (jobTypeKey sessionId) = some "f2c" →
        run (f2cUrl ++ "/" ++ sessionId) = .ok r →
        providerAttachJob f2cUrl l2cUrl p2cUrl store sessionId run = .ok r) := by
  refine ⟨fun h => ?_, fun t ht hmem => ?_, fun r ht hrun => ?_⟩
  · simp only [providerAttachJob, h]
  · simp only [providerAttachJob, ht, hmem, Bool.not_false, if_true]
  · have hmem : (["f2c", "l2c", "p2c"].contains "f2c") = true := by decide
    simp only [providerAttachJob, ht, hmem, Bool.not_true, Bool.false_eq_true, if_false]
    simp [hrun]

/-- Witness for C9: a store with nothing persisted yields the not-found
`AttachJobError`; a store with `f2c` persisted proceeds and returns the
pipeline outcome from the attach endpoint `F/sid1`. -/
theorem attach_job_requires_persisted_type_witness :
    providerAttachJob "F" "L" "P" (fun _ => none) "sid1" (fun _ => .ok none) =
      .error (.attachJobError
        ("Cannot attach job " ++ "sid1" ++ ": job type not found in local storage"))
    ∧ providerAttachJob "F" "L" "P" (fun _ => some "f2c") "sid1" (fun _ => .ok none) =
        .ok none :=
  ⟨(attach_job_requires_persisted_type "F" "L" "P" (fun _ => none) "sid1"
      (fun _ => .ok none)).1 rfl,
    (attach_job_requires_persisted_type "F" "L" "P" (fun _ => some "f2c") "sid1"
      (fun _ => .ok none)).2.2 none rfl rfl⟩

theorem processLine_cont_of_nonterminal (messageType : Option String)
    (decode : String → Option SSEMsg)
    (hterm : ∀ s m, decode s = some m → m.isTerminal = false)
    (st : ProcState) (line : String) :
    ∃ st', processLine messageType decode st line = .cont st' := by
  unfold processLine
  split
  · exact ⟨st, rfl⟩
  · split
    · cases hdec : decode (jsDrop line 6) with
      | none => exact ⟨st, rfl⟩
      | some m =>
        have hm := hterm _ _ hdec
        cases m with
        | error en r => simp [SSEMsg.isTerminal] at hm
        | done sid tu => simp [SSEMsg.isTerminal] at hm
        | preCodegen msg =>
          simp only [applyMsg]
          split <;> exact ⟨_, rfl⟩
        | figmaMetadata a b =>
          simp only [applyMsg]
          split <;> exact ⟨_, rfl⟩
        | _ => exact ⟨_, rfl⟩
    · exact ⟨st, rfl⟩

theorem runChunkLines_cont_of_nonterminal (messageType : Option String)
    (decode : String → Option SSEMsg)
    (hterm : ∀ s m, decode s = some m → m.isTerminal = false)
    (st : ProcState) (lines : List String) :
    ∃ st', runChunkLines messageType decode st lines = .cont st' := by
  induction lines generalizing st with
  | nil => exact ⟨st, rfl⟩
  | cons l ls ih =>
    obtain ⟨st1, h1⟩ := processLine_cont_of_nonterminal messageType decode hterm st l
    simp only [runChunkLines, h1]
    exact ih st1

theorem runStream_ranOut_of_nonterminal (messageType : Option String)
    (decode : String → Option SSEMsg)
    (hterm : ∀ s m, decode s = some m → m.isTerminal = false)
    (chunks : List String) (st : ProcState) (buffer : String) :
    ∃ st' buf', runStream messageType decode st buffer chunks = .ranOut st' buf' := by
  induction chunks generalizing st buffer with
  | nil => exact ⟨st, buffer, rfl⟩
  | cons c cs ih =>
    obtain ⟨st1, h1⟩ := runChunkLines_cont_of_nonterminal messageType decode hterm st
      (jsSplitNl (buffer ++ c)).dropLast
    simp only [runStream, h1]
    exact ih st1 _

/-- Claim C10: if the stream of chunks never carries a terminating message
(`done` or in-band `error`), `#processGenerationRequest` never resolves
with a partial result: it surfaces exactly the typed `CodegenError` named
"Connection" with message "Connection closed before the done message" and
status 500. -/
theorem connection_closed_before_done (messageType : Option String)
    (decode : String → Option SSEMsg) (chunks : List String)
    (hterm : ∀ s m, decode s = some m → m.isTerminal = false) :
    processGenerationRequest messageType decode chunks = .error connectionClosedError
    ∧ connectionClosedError.name = "Connection"
    ∧ connectionClosedError.status = some 500 := by
  obtain ⟨st', buf', h⟩ := runStream_ranOut_of_nonterminal messageType decode hterm
    chunks ProcState.init ""
  exact ⟨by simp [processGenerationRequest, h], rfl, rfl⟩

/-- Witness for C10: a stream consisting of one undecodable line, then a
clean close, is surfaced as the `Connection` error. -/
theorem connection_closed_before_done_witness :
    processGenerationRequest none (fun _ => none) ["data: x\n"] =
      .error connectionClosedError :=
  (connection_closed_before_done none (fun _ => none) ["data: x\n"]
    (fun _ _ h => Option.noConfusion h)).1

end AnimaSdk
